import Mathlib

/-!
Shallow embedding of the blogicum blog application's request handlers
(src/blogicum/blog/views.py) and the data model they operate on.

Records mirror the entities of the data model (User, Category, Post,
Comment); handlers are translated function by function from views.py.
A viewer is `Option UserRec`: `none` is an unauthenticated (anonymous)
request, `some u` an authenticated one.  Django model-instance equality
(`request.user == post.author`) is primary-key equality, and an anonymous
user is never equal to any persisted user.  Timestamps are integers.
-/

namespace Blogicum

/-- A registered user (the fields the views touch: pk, username,
first_name, last_name, email; email is nullable). -/
structure UserRec where
  id : Nat
  username : String
  first_name : String
  last_name : String
  email : Option String
  deriving Repr, DecidableEq

/-- A blog category: title, slug (unique), description, is_published. -/
structure Category where
  cid : Nat
  title : String
  slug : String
  description : String
  is_published : Bool
  deriving Repr, DecidableEq

/-- A blog post.  The category is embedded (the views always reach it as
`post.category`); `author` and `location` are foreign keys by id. -/
structure Post where
  pid : Nat
  title : String
  text : String
  pub_date : Int
  is_published : Bool
  author : Nat
  category : Category
  location : Option Nat
  image : Option String
  deriving Repr, DecidableEq

/-- A comment on a post. -/
structure Comment where
  comid : Nat
  text : String
  author : Nat
  postId : Nat
  deriving Repr, DecidableEq

/-- The persisted state: all tables of the storage collaborator. -/
structure DB where
  users : List UserRec
  categories : List Category
  posts : List Post
  comments : List Comment
  deriving Repr, DecidableEq

/-- Django's `request.user == someUser` for a possibly-anonymous request:
an anonymous user equals no persisted user; authenticated users compare
by primary key. -/
def userEq (viewer : Option UserRec) (authorId : Nat) : Bool :=
  match viewer with
  | none => false
  | some u => u.id == authorId

/-- Django's `request.user.username`: the empty string for an anonymous
request (AnonymousUser.username), the user's username otherwise. -/
def requestUsername (viewer : Option UserRec) : String :=
  match viewer with
  | none => ""
  | some u => u.username

/-- `get_object_or_404(Post, pk=pk)` as a lookup (None encodes Http404). -/
def findPost (db : DB) (pk : Nat) : Option Post :=
  db.posts.find? (fun p => p.pid == pk)

/-- `get_object_or_404(Comment, pk=pk)` as a lookup. -/
def findComment (db : DB) (pk : Nat) : Option Comment :=
  db.comments.find? (fun c => c.comid == pk)

/-- `get_object_or_404(User, username=username)` as a lookup. -/
def findUserByUsername (db : DB) (username : String) : Option UserRec :=
  db.users.find? (fun u => u.username == username)

/-- `get_object_or_404(Category, slug=slug)` as a lookup. -/
def findCategoryBySlug (db : DB) (slug : String) : Option Category :=
  db.categories.find? (fun c => c.slug == slug)

/-- `post.comments.all()`: the comments whose post foreign key is `pk`. -/
def postComments (db : DB) (pk : Nat) : List Comment :=
  db.comments.filter (fun c => c.postId == pk)

/-- A resolved URL, as produced by `reverse_lazy` in views.py plus the
framework's login URL used by `LoginRequiredMixin`'s default denial. -/
inductive Url where
  | index
  | login
  | profile (username : String)
  | postDetail (post_id : Nat)
  deriving Repr, DecidableEq

/-- The response of a handler: 404, a redirect, a rendered detail page,
a rendered listing page, or a server error (an uncaught exception). -/
inductive Resp where
  | notFound
  | redirect (url : Url)
  | render (post : Post) (comments : List Comment)
  | renderPage (items : List Post)
  | serverError (msg : String)
  deriving Repr, DecidableEq

/-- The items of a rendered listing page (empty for any other response). -/
def Resp.pageItems : Resp → List Post
  | Resp.renderPage items => items
  | _ => []

/-- Modelled from the spec: the framework pagination contract (Django's
`Paginator`, external to this repository).  Number of pages for `count`
items at `per` items per page; an empty list still has one (empty) page. -/
def num_pages (count per : Nat) : Nat :=
  max 1 ((count + per - 1) / per)

/-- Modelled from the spec: `Paginator(l, per).get_page(p)` (framework
code, not part of this repository).  A valid page number selects its
slice of at most `per` items; an out-of-range page number yields the
last valid page. -/
def get_page (l : List Post) (per : Nat) (p : Nat) : List Post :=
  let np := num_pages l.length per
  let q := if 1 ≤ p ∧ p ≤ np then p else np
  (l.drop ((q - 1) * per)).take per

/-- An outbound notification message, as handed to `send_mail`. -/
structure Email where
  subject : String
  message : String
  from_email : String
  recipient_list : List String
  deriving Repr, DecidableEq

/-- Django's `send_mail`: `delivered` abstracts the backend's success.
With `fail_silently` set, a delivery failure is swallowed (0 messages
sent); otherwise it raises (the error branch). -/
def send_mail (mail : Email) (fail_silently : Bool) (delivered : Bool) :
    Except String Nat :=
  if delivered then Except.ok 1
  else if fail_silently then Except.ok 0
  else Except.error mail.subject

/-- The editable fields of a post form (`CreatePost.fields` /
`EditPost.fields`: title, text, location, category, pub_date, image). -/
structure PostForm where
  title : String
  text : String
  location : Option Nat
  category : Category
  pub_date : Int
  image : Option String
  deriving Repr, DecidableEq

/-- The editable fields of the profile form (`EditProfile.fields`). -/
structure UserForm where
  username : String
  first_name : String
  last_name : String
  email : Option String
  deriving Repr, DecidableEq

/-- Replace the post with `p.pid` by `p` (the ORM save of an edited
instance). -/
def updatePost (db : DB) (p : Post) : DB :=
  { db with posts := db.posts.map (fun q => if q.pid == p.pid then p else q) }

/-- Replace the comment with `c.comid` by `c`. -/
def updateComment (db : DB) (c : Comment) : DB :=
  { db with comments :=
      db.comments.map (fun d => if d.comid == c.comid then c else d) }

/-- `post_detail(request, post_id)` (views.py): 404 when the post id is
absent; 404 when the visibility condition fails for a non-author viewer;
otherwise render the post with its comments. -/
def post_detail (db : DB) (viewer : Option UserRec) (now : Int)
    (post_id : Nat) : Resp :=
  match findPost db post_id with
  | none => Resp.notFound
  | some post =>
    if (decide (post.pub_date > now)
        || post.is_published == false
        || post.category.is_published == false)
        && !(userEq viewer post.author) then
      Resp.notFound
    else
      Resp.render post (postComments db post.pid)

/-- The value `CreateComment.get_context_data` produces: either the
`HttpResponseNotFound` it returns in place of a context dictionary, or
the context (post and its comments). -/
inductive ContextResult where
  | notFoundResponse
  | context (post : Post) (comments : List Comment)
  deriving Repr, DecidableEq

/-- `CreateComment.get_context_data` (views.py): looks the post up by the
`post_id` URL kwarg and applies the same visibility condition as
`post_detail`, returning an `HttpResponseNotFound` value on failure. -/
def CreateComment_get_context_data (db : DB) (viewer : Option UserRec)
    (now : Int) (post_id : Nat) : ContextResult :=
  match findPost db post_id with
  | none => ContextResult.notFoundResponse
  | some post =>
    if (decide (post.pub_date > now)
        || post.is_published == false
        || post.category.is_published == false)
        && !(userEq viewer post.author) then
      ContextResult.notFoundResponse
    else
      ContextResult.context post (postComments db post.pid)

/-- `CreateComment.form_valid` (views.py): sets the comment's author and
post, sends the notification with `fail_silently=True`, saves the
comment and redirects to the post's detail page.  Returns the new state,
the notifications triggered, and the response. -/
def CreateComment_form_valid (db : DB) (user : UserRec) (post_id : Nat)
    (text : String) (newId : Nat) (delivered : Bool) :
    DB × List Email × Resp :=
  match findPost db post_id with
  | none => (db, [], Resp.notFound)
  | some post =>
    let mail : Email :=
      { subject := "New comment"
        message := user.username
          ++ " пытался опубликовать запись!\nТекст комментария:" ++ text
        from_email := "blogicum@ya.ru"
        recipient_list := db.users.filterMap (fun u => u.email) }
    match send_mail mail true delivered with
    | Except.error msg => (db, [mail], Resp.serverError msg)
    | Except.ok _ =>
      let c : Comment :=
        { comid := newId, text := text, author := user.id, postId := post.pid }
      ({ db with comments := db.comments ++ [c] }, [mail],
        Resp.redirect (Url.postDetail post_id))

/-- The POST path of `CreateComment`: `LoginRequiredMixin` (default login
URL) then `form_valid` for an authenticated viewer with valid input. -/
def CreateComment_post (db : DB) (viewer : Option UserRec) (post_id : Nat)
    (text : String) (newId : Nat) (delivered : Bool) :
    DB × List Email × Resp :=
  match viewer with
  | none => (db, [], Resp.redirect Url.login)
  | some u => CreateComment_form_valid db u post_id text newId delivered

/-- `CreatePost` (views.py): `LoginRequiredMixin` with the default login
URL; on valid input sets the author and saves, then redirects to the
creator's profile.  `defaultPublished` is the model default of the
`is_published` field (the form does not expose it, and the model
declaration is outside the translated sources). -/
def CreatePost_view (db : DB) (viewer : Option UserRec) (form : PostForm)
    (newId : Nat) (defaultPublished : Bool) : DB × Resp :=
  match viewer with
  | none => (db, Resp.redirect Url.login)
  | some u =>
    let p : Post :=
      { pid := newId, title := form.title, text := form.text
        pub_date := form.pub_date, is_published := defaultPublished
        author := u.id, category := form.category
        location := form.location, image := form.image }
    ({ db with posts := db.posts ++ [p] },
      Resp.redirect (Url.profile u.username))

/-- The post instance `EditPost.form_valid` saves: the form's fields on
the existing primary key, the author reset to the requesting user, and
`is_published` recomputed from the submitted `pub_date` (future means
unpublished). -/
def edited_post (u : UserRec) (post : Post) (form : PostForm) (now : Int) :
    Post :=
  { pid := post.pid, title := form.title, text := form.text
    pub_date := form.pub_date
    is_published := if decide (form.pub_date > now) then false else true
    author := u.id, category := form.category
    location := form.location, image := form.image }

/-- `EditPost` (views.py): `LoginRequiredMixin` with `get_login_url`
overridden to the post's detail URL and `handle_no_permission`
overridden to a plain redirect there; `test_func` compares the viewer
with the post's author; `form_valid` overwrites `is_published` from the
submitted `pub_date` and redirects to the post's detail page. -/
def EditPost_view (db : DB) (viewer : Option UserRec) (post_id : Nat)
    (form : PostForm) (now : Int) : DB × Resp :=
  match viewer with
  | none => (db, Resp.redirect (Url.postDetail post_id))
  | some u =>
    match findPost db post_id with
    | none => (db, Resp.notFound)
    | some post =>
      if u.id == post.author then
        (updatePost db (edited_post u post form now),
          Resp.redirect (Url.postDetail post_id))
      else
        (db, Resp.redirect (Url.postDetail post_id))

/-- `DeletePost` (views.py): same access chain as `EditPost`; on success
deletes the post and redirects to the deleter's profile
(`get_success_url` overrides the class's `success_url`). -/
def DeletePost_view (db : DB) (viewer : Option UserRec) (post_id : Nat) :
    DB × Resp :=
  match viewer with
  | none => (db, Resp.redirect (Url.postDetail post_id))
  | some u =>
    match findPost db post_id with
    | none => (db, Resp.notFound)
    | some post =>
      if u.id == post.author then
        ({ db with posts := db.posts.filter (fun q => !(q.pid == post.pid)) },
          Resp.redirect (Url.profile u.username))
      else
        (db, Resp.redirect (Url.postDetail post_id))

/-- `EditComment` (views.py): denial (unauthenticated or non-author)
redirects to the detail page of the `post_id` URL kwarg; on success the
comment's text is updated and the same detail page is the target. -/
def EditComment_view (db : DB) (viewer : Option UserRec)
    (post_id comment_id : Nat) (newText : String) : DB × Resp :=
  match viewer with
  | none => (db, Resp.redirect (Url.postDetail post_id))
  | some u =>
    match findComment db comment_id with
    | none => (db, Resp.notFound)
    | some c =>
      if u.id == c.author then
        (updateComment db { c with text := newText },
          Resp.redirect (Url.postDetail post_id))
      else
        (db, Resp.redirect (Url.postDetail post_id))

/-- `DeleteComment` (views.py): same access chain as `EditComment`; on
success deletes the comment and redirects to the same detail page. -/
def DeleteComment_view (db : DB) (viewer : Option UserRec)
    (post_id comment_id : Nat) : DB × Resp :=
  match viewer with
  | none => (db, Resp.redirect (Url.postDetail post_id))
  | some u =>
    match findComment db comment_id with
    | none => (db, Resp.notFound)
    | some c =>
      if u.id == c.author then
        ({ db with comments :=
            db.comments.filter (fun d => !(d.comid == c.comid)) },
          Resp.redirect (Url.postDetail post_id))
      else
        (db, Resp.redirect (Url.postDetail post_id))

/-- `EditProfile.get_object` (views.py): returns `self.request.user`,
ignoring every URL kwarg. -/
def EditProfile_get_object (user : UserRec)
    (kwargs : List (String × String)) : UserRec :=
  user

/-- `EditProfile` (views.py): `LoginRequiredMixin` with the default login
URL; loads the object via `EditProfile_get_object`, applies the form's
fields to it and redirects to the (possibly renamed) profile. -/
def EditProfile_view (db : DB) (viewer : Option UserRec)
    (kwargs : List (String × String)) (form : UserForm) : DB × Resp :=
  match viewer with
  | none => (db, Resp.redirect Url.login)
  | some u =>
    let target := EditProfile_get_object u kwargs
    let updated : UserRec :=
      { id := target.id, username := form.username
        first_name := form.first_name, last_name := form.last_name
        email := form.email }
    ({ db with users :=
        db.users.map (fun v => if v.id == target.id then updated else v) },
      Resp.redirect (Url.profile updated.username))

/-- The queryset of `IndexPosts.get_context_data` (views.py):
`pub_date <= now`, `is_published`, `category.is_published`. -/
def index_post_list (db : DB) (now : Int) : List Post :=
  db.posts.filter (fun p =>
    decide (p.pub_date ≤ now)
      && p.is_published == true
      && p.category.is_published == true)

/-- `IndexPosts` (views.py): the filtered queryset paginated at 10. -/
def IndexPosts_view (db : DB) (now : Int) (page : Nat) : List Post :=
  get_page (index_post_list db now) 10 page

/-- The queryset of `user_profile` (views.py): the profile owner's posts,
additionally filtered by `is_published` only when the requesting user's
username differs from the profile's username. -/
def user_profile_post_list (db : DB) (viewer : Option UserRec)
    (username : String) (profile : UserRec) : List Post :=
  let post_list := db.posts.filter (fun p => p.author == profile.id)
  if requestUsername viewer != username then
    post_list.filter (fun p => p.is_published == true)
  else
    post_list

/-- `user_profile(request, username)` (views.py): 404 for an unknown
username, otherwise the queryset above paginated at 10. -/
def user_profile (db : DB) (viewer : Option UserRec) (username : String)
    (page : Nat) : Resp :=
  match findUserByUsername db username with
  | none => Resp.notFound
  | some profile =>
    Resp.renderPage
      (get_page (user_profile_post_list db viewer username profile) 10 page)

/-- The queryset of `category_posts` (views.py): the category's posts,
excluding `is_published=False` or a future `pub_date`. -/
def category_post_list (db : DB) (category : Category) (now : Int) :
    List Post :=
  (db.posts.filter (fun p => p.category.cid == category.cid)).filter
    (fun p => !(p.is_published == false || decide (p.pub_date > now)))

/-- `category_posts(request, category_slug)` (views.py): 404 for an
unknown slug or an unpublished category, otherwise the queryset above
paginated at 10. -/
def category_posts (db : DB) (slug : String) (now : Int) (page : Nat) :
    Resp :=
  match findCategoryBySlug db slug with
  | none => Resp.notFound
  | some category =>
    if category.is_published == false then Resp.notFound
    else
      Resp.renderPage (get_page (category_post_list db category now) 10 page)

/-- The spec's visibility predicate `is_visible(post, viewer, now)`
(spec section 4.1): true when the viewer is the author, otherwise true
iff the post and its category are published and the publish date has
passed.  Stated from the spec's words, for comparison with the
handlers. -/
def is_visible (post : Post) (viewer : Option UserRec) (now : Int) : Bool :=
  userEq viewer post.author
    || (post.is_published && post.category.is_published
        && decide (post.pub_date ≤ now))

/-- The spec's bulk visibility condition for list endpoints (spec
section 4.3): `is_published AND category.is_published AND
pub_date <= now`.  Stated from the spec's words. -/
def bulk_visible (post : Post) (now : Int) : Bool :=
  post.is_published && post.category.is_published
    && decide (post.pub_date ≤ now)

/-- A published category, used as concrete test data. -/
def catPub : Category :=
  { cid := 1, title := "General", slug := "general", description := ""
    is_published := true }

/-- An unpublished category, used as concrete test data. -/
def catHidden : Category :=
  { cid := 2, title := "Hidden", slug := "hidden", description := ""
    is_published := false }

/-- A concrete user (author of the test posts). -/
def alice : UserRec :=
  { id := 1, username := "alice", first_name := "A", last_name := ""
    email := some "alice@example.org" }

/-- A concrete user who authored nothing (email unset). -/
def bob : UserRec :=
  { id := 2, username := "bob", first_name := "B", last_name := ""
    email := none }

/-- A fully public post by alice (published, published category,
past publish date relative to the test time 50). -/
def examplePost : Post :=
  { pid := 1, title := "T", text := "hello", pub_date := 10
    is_published := true, author := 1, category := catPub
    location := none, image := none }

/-- A comment by alice on the public post. -/
def exampleComment : Comment :=
  { comid := 1, text := "c", author := 1, postId := 1 }

/-- A concrete database holding the public post. -/
def exampleDB : DB :=
  { users := [alice, bob], categories := [catPub]
    posts := [examplePost], comments := [exampleComment] }

/-- A withdrawn post by alice (`is_published = false`). -/
def hiddenPost : Post :=
  { pid := 1, title := "H", text := "secret", pub_date := 10
    is_published := false, author := 1, category := catPub
    location := none, image := none }

/-- A concrete database holding only the withdrawn post. -/
def hiddenDB : DB :=
  { users := [alice, bob], categories := [catPub]
    posts := [hiddenPost], comments := [] }

/-- A published post by alice whose category is unpublished and whose
publish date (100) lies in the future of the test time 50. -/
def futurePost : Post :=
  { pid := 3, title := "X", text := "", pub_date := 100
    is_published := true, author := 1, category := catHidden
    location := none, image := none }

/-- A concrete database holding the future-dated post. -/
def profileDB : DB :=
  { users := [alice, bob], categories := [catPub, catHidden]
    posts := [futurePost], comments := [] }

/-- A concrete post form. -/
def examplePostForm : PostForm :=
  { title := "T2", text := "edited", location := none, category := catPub
    pub_date := 100, image := none }

/-- A concrete profile form. -/
def exampleUserForm : UserForm :=
  { username := "alice2", first_name := "A", last_name := ""
    email := none }

/-- The handlers' shared denial condition (views.py lines 288-292 and
158-162) is exactly the negation of the spec's visibility predicate. -/
theorem deny_eq_not_is_visible (post : Post) (viewer : Option UserRec)
    (now : Int) :
    ((decide (post.pub_date > now)
        || post.is_published == false
        || post.category.is_published == false)
      && !(userEq viewer post.author))
      = !(is_visible post viewer now) := by
  unfold is_visible
  by_cases hle : post.pub_date ≤ now
  · have hnl : ¬ post.pub_date > now := not_lt.mpr hle
    rw [decide_eq_true hle, decide_eq_false hnl]
    cases hu : userEq viewer post.author <;> cases hp : post.is_published <;>
      cases hc : post.category.is_published <;> rfl
  · have hgt : post.pub_date > now := lt_of_not_ge hle
    rw [decide_eq_false hle, decide_eq_true hgt]
    cases hu : userEq viewer post.author <;> cases hp : post.is_published <;>
      cases hc : post.category.is_published <;> rfl

/-- C1: for every post P, viewer V and time now, the visibility decision
of the post-detail handler and of the comment-creation context check is
favourable iff V is P's author or all of P.is_published,
P.category.is_published and P.pub_date <= now hold; otherwise the viewer
is denied. -/
theorem visibility_decision_matches_spec (db : DB) (viewer : Option UserRec)
    (now : Int) (post_id : Nat) (post : Post)
    (hfind : findPost db post_id = some post) :
    (post_detail db viewer now post_id ≠ Resp.notFound ↔
      is_visible post viewer now = true) ∧
    (CreateComment_get_context_data db viewer now post_id ≠
        ContextResult.notFoundResponse ↔
      is_visible post viewer now = true) := by
  unfold post_detail CreateComment_get_context_data
  rw [hfind]
  simp only [deny_eq_not_is_visible]
  cases hv : is_visible post viewer now <;> simp [hv]

/-- Witness for C1: the public post is visible to non-author bob, and
both call sites agree. -/
theorem visibility_decision_matches_spec_witness :
    (post_detail exampleDB (some bob) 50 1 ≠ Resp.notFound ↔
      is_visible examplePost (some bob) 50 = true) ∧
    (CreateComment_get_context_data exampleDB (some bob) 50 1 ≠
        ContextResult.notFoundResponse ↔
      is_visible examplePost (some bob) 50 = true) :=
  visibility_decision_matches_spec exampleDB (some bob) 50 1 examplePost
    (by decide)

/-- C2, evaluated at the failing input: the withdrawn post is invisible
to non-author bob and the detail view (and the context check) deny, yet
the comment POST path (`CreateComment.form_valid`, which never consults
the visibility condition) attaches the comment and redirects instead of
returning not-found. -/
theorem comment_create_bypasses_visibility :
    is_visible hiddenPost (some bob) 50 = false ∧
    post_detail hiddenDB (some bob) 50 1 = Resp.notFound ∧
    CreateComment_get_context_data hiddenDB (some bob) 50 1 =
      ContextResult.notFoundResponse ∧
    (CreateComment_post hiddenDB (some bob) 1 "hi" 7 true).2.2 =
      Resp.redirect (Url.postDetail 1) ∧
    (CreateComment_post hiddenDB (some bob) 1 "hi" 7 true).1.comments =
      [{ comid := 7, text := "hi", author := 2, postId := 1 }] := by
  decide

/-- C3: an authenticated viewer who is not the author of the targeted
post or comment is redirected to the (containing) post's detail page by
each of the four mutation handlers, and the stored state is unchanged. -/
theorem unauthorized_mutation_redirects (db : DB) (u : UserRec) (now : Int)
    (post_id comment_id : Nat) (form : PostForm) (newText : String)
    (post : Post) (c : Comment)
    (hp : findPost db post_id = some post) (hpa : u.id ≠ post.author)
    (hc : findComment db comment_id = some c) (hca : u.id ≠ c.author)
    (hcp : c.postId = post_id) :
    EditPost_view db (some u) post_id form now =
      (db, Resp.redirect (Url.postDetail post_id)) ∧
    DeletePost_view db (some u) post_id =
      (db, Resp.redirect (Url.postDetail post_id)) ∧
    EditComment_view db (some u) post_id comment_id newText =
      (db, Resp.redirect (Url.postDetail c.postId)) ∧
    DeleteComment_view db (some u) post_id comment_id =
      (db, Resp.redirect (Url.postDetail c.postId)) := by
  unfold EditPost_view DeletePost_view EditComment_view DeleteComment_view
  rw [hp, hc, hcp]
  have h1 : (u.id == post.author) = false := beq_eq_false_iff_ne.mpr hpa
  have h2 : (u.id == c.author) = false := beq_eq_false_iff_ne.mpr hca
  simp [h1, h2]

/-- Witness for C3: bob attacks alice's post and comment and is
redirected everywhere, with the database intact. -/
theorem unauthorized_mutation_redirects_witness :
    EditPost_view exampleDB (some bob) 1 examplePostForm 50 =
      (exampleDB, Resp.redirect (Url.postDetail 1)) ∧
    DeletePost_view exampleDB (some bob) 1 =
      (exampleDB, Resp.redirect (Url.postDetail 1)) ∧
    EditComment_view exampleDB (some bob) 1 1 "z" =
      (exampleDB, Resp.redirect (Url.postDetail exampleComment.postId)) ∧
    DeleteComment_view exampleDB (some bob) 1 1 =
      (exampleDB, Resp.redirect (Url.postDetail exampleComment.postId)) :=
  unauthorized_mutation_redirects exampleDB bob 50 1 1 examplePostForm "z"
    examplePost exampleComment (by decide) (by decide) (by decide)
    (by decide) (by decide)

/-- Finding a post by primary key after replacing that post in place:
the lookup now yields the replacement. -/
theorem find_after_update (posts : List Post) (pk : Nat)
    (post updated : Post) (hpid : updated.pid = post.pid)
    (hfind : posts.find? (fun p => p.pid == pk) = some post) :
    (posts.map (fun q => if q.pid == updated.pid then updated else q)).find?
      (fun p => p.pid == pk) = some updated := by
  rw [List.find?_map]
  have hpred : ((fun p => p.pid == pk) ∘
      (fun q => if q.pid == updated.pid then updated else q))
      = fun q => q.pid == pk := by
    funext q
    simp only [Function.comp_apply]
    by_cases h : q.pid = updated.pid
    · rw [if_pos (beq_iff_eq.mpr h), h]
    · rw [if_neg (fun hbeq => h (beq_iff_eq.mp hbeq))]
  rw [hpred, hfind]
  have hcond : (post.pid == updated.pid) = true := beq_iff_eq.mpr hpid.symm
  simp only [Option.map_some', hcond, if_true]

/-- C4: after a successful edit by the author, the stored post is the
edited instance, whose `is_published` flag is recomputed from the
submitted `pub_date`: false when the date lies in the future, true
otherwise, regardless of the prior flag. -/
theorem edit_post_derives_is_published (db : DB) (u : UserRec) (now : Int)
    (post_id : Nat) (form : PostForm) (post : Post)
    (hp : findPost db post_id = some post) (ha : u.id = post.author) :
    findPost (EditPost_view db (some u) post_id form now).1 post_id =
      some (edited_post u post form now) ∧
    (now < form.pub_date →
      (edited_post u post form now).is_published = false) ∧
    (¬ now < form.pub_date →
      (edited_post u post form now).is_published = true) := by
  unfold EditPost_view
  rw [hp]
  have ha' : (u.id == post.author) = true := beq_iff_eq.mpr ha
  simp only [ha', if_true]
  refine ⟨?_, ?_, ?_⟩
  · exact find_after_update db.posts post_id post (edited_post u post form now)
      rfl hp
  · intro h
    simp [edited_post, h]
  · intro h
    simp [edited_post, h]

/-- Witness for C4: alice edits her post to a future publish date (100,
against the current time 50) and the stored post ends up unpublished. -/
theorem edit_post_derives_is_published_witness :
    findPost (EditPost_view exampleDB (some alice) 1 examplePostForm 50).1 1 =
      some (edited_post alice examplePost examplePostForm 50) ∧
    (edited_post alice examplePost examplePostForm 50).is_published = false :=
  ⟨(edit_post_derives_is_published exampleDB alice 50 1 examplePostForm
      examplePost (by decide) (by decide)).1,
    (edit_post_derives_is_published exampleDB alice 50 1 examplePostForm
      examplePost (by decide) (by decide)).2.1 (by decide)⟩

/-- C5 counterexample: bob (not the owner) views alice's profile and the
returned page contains a post that fails the bulk visibility condition
at time 50 (its category is unpublished and its publish date is 100), so
the profile listing is not restricted by the full condition for
non-owner viewers. -/
theorem profile_listing_shows_non_bulk_visible_post :
    user_profile profileDB (some bob) "alice" 1 =
      Resp.renderPage [futurePost] ∧
    bulk_visible futurePost 50 = false := by
  decide

/-- C5 amended: the profile listing paginates the owner's posts filtered
only by `is_published`, and only when the requesting username differs
from the profile's username; the category's publication state and the
publish date impose no restriction, and the owner sees every post. -/
theorem profile_listing_filters_only_is_published (db : DB)
    (viewer : Option UserRec) (username : String) (profile : UserRec)
    (page : Nat) (q : Post)
    (hfind : findUserByUsername db username = some profile) :
    user_profile db viewer username page =
      Resp.renderPage
        (get_page (user_profile_post_list db viewer username profile)
          10 page) ∧
    (requestUsername viewer ≠ username →
      (q ∈ user_profile_post_list db viewer username profile ↔
        q ∈ db.posts ∧ q.author = profile.id ∧ q.is_published = true)) ∧
    (requestUsername viewer = username →
      (q ∈ user_profile_post_list db viewer username profile ↔
        q ∈ db.posts ∧ q.author = profile.id)) := by
  refine ⟨?_, ?_, ?_⟩
  · unfold user_profile
    rw [hfind]
  · intro hne
    unfold user_profile_post_list
    rw [if_pos (bne_iff_ne.mpr hne)]
    simp only [List.mem_filter, beq_iff_eq, and_assoc]
  · intro heq
    unfold user_profile_post_list
    rw [if_neg (fun hb => absurd heq (bne_iff_ne.mp hb))]
    simp only [List.mem_filter, beq_iff_eq]

/-- Witness for C5 (amended): at the concrete database, the endpoint
renders the paginated queryset and the future-dated post of the
unpublished category is a member for the non-owner viewer bob. -/
theorem profile_listing_filters_only_is_published_witness :
    (user_profile profileDB (some bob) "alice" 1 =
      Resp.renderPage
        (get_page (user_profile_post_list profileDB (some bob) "alice" alice)
          10 1)) ∧
    (futurePost ∈ user_profile_post_list profileDB (some bob) "alice" alice ↔
      futurePost ∈ profileDB.posts ∧ futurePost.author = alice.id ∧
        futurePost.is_published = true) :=
  ⟨(profile_listing_filters_only_is_published profileDB (some bob) "alice"
      alice 1 futurePost (by decide)).1,
    (profile_listing_filters_only_is_published profileDB (some bob) "alice"
      alice 1 futurePost (by decide)).2.1 (by decide)⟩

/-- C6 counterexample: an unauthenticated attempt to edit a post is
redirected to that post's detail page, not to the login page
(`EditPost.get_login_url` is overridden to the detail URL). -/
theorem unauthenticated_edit_redirects_to_detail_not_login :
    (EditPost_view exampleDB none 1 examplePostForm 50).2 =
      Resp.redirect (Url.postDetail 1) ∧
    (EditPost_view exampleDB none 1 examplePostForm 50).2 ≠
      Resp.redirect Url.login := by
  decide

/-- C6 amended: every unauthenticated mutation attempt leaves the stored
state unchanged and is redirected; post create, comment create and
profile edit redirect to the login page, while post and comment edit and
delete redirect to the target post's detail page (their `get_login_url`
is overridden). -/
theorem unauthenticated_mutations_denied (db : DB)
    (post_id comment_id newId : Nat) (form : PostForm) (uform : UserForm)
    (text : String) (kwargs : List (String × String))
    (defaultPublished delivered : Bool) (now : Int) :
    CreatePost_view db none form newId defaultPublished =
      (db, Resp.redirect Url.login) ∧
    CreateComment_post db none post_id text newId delivered =
      (db, [], Resp.redirect Url.login) ∧
    EditProfile_view db none kwargs uform = (db, Resp.redirect Url.login) ∧
    EditPost_view db none post_id form now =
      (db, Resp.redirect (Url.postDetail post_id)) ∧
    DeletePost_view db none post_id =
      (db, Resp.redirect (Url.postDetail post_id)) ∧
    EditComment_view db none post_id comment_id text =
      (db, Resp.redirect (Url.postDetail post_id)) ∧
    DeleteComment_view db none post_id comment_id =
      (db, Resp.redirect (Url.postDetail post_id)) :=
  ⟨rfl, rfl, rfl, rfl, rfl, rfl, rfl⟩

/-- C7: every successful comment creation triggers exactly one outbound
notification, with subject "New comment", sender blogicum@ya.ru,
recipient list the email addresses of all registered users, and a body
consisting of the commenter's username followed by a fixed phrase and
the comment text; and the operation's entire outcome is independent of
whether the delivery succeeds (`fail_silently=True`). -/
theorem comment_notification_contract (db : DB) (u : UserRec)
    (post_id newId : Nat) (text : String) (post : Post)
    (hp : findPost db post_id = some post) (delivered : Bool) :
    (CreateComment_form_valid db u post_id text newId delivered).2.1 =
      [{ subject := "New comment"
         message := u.username ++
           (" пытался опубликовать запись!\nТекст комментария:" ++ text)
         from_email := "blogicum@ya.ru"
         recipient_list := db.users.filterMap (fun v => v.email) }] ∧
    CreateComment_form_valid db u post_id text newId delivered =
      CreateComment_form_valid db u post_id text newId true ∧
    (CreateComment_form_valid db u post_id text newId delivered).2.2 =
      Resp.redirect (Url.postDetail post_id) := by
  cases delivered <;>
    simp [CreateComment_form_valid, send_mail, hp, String.append_assoc]

/-- Witness for C7: bob comments "hi" on the public post; the single
notification has the stated fields and a failed delivery changes
nothing. -/
theorem comment_notification_contract_witness :
    (CreateComment_form_valid exampleDB bob 1 "hi" 7 false).2.1 =
      [{ subject := "New comment"
         message := bob.username ++
           (" пытался опубликовать запись!\nТекст комментария:" ++ "hi")
         from_email := "blogicum@ya.ru"
         recipient_list := exampleDB.users.filterMap (fun v => v.email) }] ∧
    CreateComment_form_valid exampleDB bob 1 "hi" 7 false =
      CreateComment_form_valid exampleDB bob 1 "hi" 7 true ∧
    (CreateComment_form_valid exampleDB bob 1 "hi" 7 false).2.2 =
      Resp.redirect (Url.postDetail 1) :=
  comment_notification_contract exampleDB bob 1 7 "hi" examplePost
    (by decide) false

/-- A page produced by the modelled paginator never exceeds `per`
items. -/
theorem get_page_length_le (l : List Post) (per p : Nat) :
    (get_page l per p).length ≤ per :=
  List.length_take_le _ _

/-- A page number beyond the last page yields the last valid page. -/
theorem get_page_out_of_range (l : List Post) (per p : Nat)
    (h : num_pages l.length per < p) :
    get_page l per p = get_page l per (num_pages l.length per) := by
  simp only [get_page]
  have h1 : ¬(1 ≤ p ∧ p ≤ num_pages l.length per) :=
    fun hx => absurd h (not_lt.mpr hx.2)
  have h2 : 1 ≤ num_pages l.length per ∧
      num_pages l.length per ≤ num_pages l.length per :=
    ⟨le_max_left 1 _, le_refl _⟩
  rw [if_neg h1, if_pos h2]

/-- C8: each list endpoint (index, profile, category) paginates at 10:
no returned page has more than 10 items, and on each endpoint a page
number beyond the last page yields the same response as the last valid
page of its queryset. -/
theorem list_endpoints_paginate_at_ten (db : DB) (viewer : Option UserRec)
    (username slug : String) (now : Int) (page : Nat) :
    (IndexPosts_view db now page).length ≤ 10 ∧
    (user_profile db viewer username page).pageItems.length ≤ 10 ∧
    (category_posts db slug now page).pageItems.length ≤ 10 ∧
    (num_pages (index_post_list db now).length 10 < page →
      IndexPosts_view db now page =
        IndexPosts_view db now
          (num_pages (index_post_list db now).length 10)) ∧
    (∀ profile, findUserByUsername db username = some profile →
      num_pages (user_profile_post_list db viewer username profile).length 10
          < page →
      user_profile db viewer username page =
        user_profile db viewer username
          (num_pages
            (user_profile_post_list db viewer username profile).length 10)) ∧
    (∀ category, findCategoryBySlug db slug = some category →
      num_pages (category_post_list db category now).length 10 < page →
      category_posts db slug now page =
        category_posts db slug now
          (num_pages (category_post_list db category now).length 10)) := by
  refine ⟨get_page_length_le _ _ _, ?_, ?_, ?_, ?_, ?_⟩
  · unfold user_profile
    cases findUserByUsername db username with
    | none => simp [Resp.pageItems]
    | some profile =>
      simpa [Resp.pageItems] using
        get_page_length_le (user_profile_post_list db viewer username profile)
          10 page
  · unfold category_posts
    cases findCategoryBySlug db slug with
    | none => simp [Resp.pageItems]
    | some category =>
      cases hcp : category.is_published <;>
        simp [Resp.pageItems, hcp, get_page_length_le]
  · intro h
    exact get_page_out_of_range _ _ _ h
  · intro profile hf h
    unfold user_profile
    simp only [hf]
    rw [get_page_out_of_range _ _ _ h]
  · intro category hf h
    unfold category_posts
    simp only [hf]
    cases hcp : category.is_published with
    | false => rfl
    | true => simp only [get_page_out_of_range _ _ _ h]

/-- Witness for C8: one public post at time 50; page 5 is out of range
on all three endpoints and collapses to the (only) last page of each
queryset. -/
theorem list_endpoints_paginate_at_ten_witness :
    (IndexPosts_view exampleDB 50 5).length ≤ 10 ∧
    (user_profile exampleDB (some bob) "alice" 5).pageItems.length ≤ 10 ∧
    (category_posts exampleDB "general" 50 5).pageItems.length ≤ 10 ∧
    (IndexPosts_view exampleDB 50 5 =
      IndexPosts_view exampleDB 50
        (num_pages (index_post_list exampleDB 50).length 10)) ∧
    (user_profile exampleDB (some bob) "alice" 5 =
      user_profile exampleDB (some bob) "alice"
        (num_pages
          (user_profile_post_list exampleDB (some bob) "alice" alice).length
          10)) ∧
    (category_posts exampleDB "general" 50 5 =
      category_posts exampleDB "general" 50
        (num_pages (category_post_list exampleDB catPub 50).length 10)) :=
  ⟨(list_endpoints_paginate_at_ten exampleDB (some bob) "alice" "general"
      50 5).1,
    (list_endpoints_paginate_at_ten exampleDB (some bob) "alice" "general"
      50 5).2.1,
    (list_endpoints_paginate_at_ten exampleDB (some bob) "alice" "general"
      50 5).2.2.1,
    (list_endpoints_paginate_at_ten exampleDB (some bob) "alice" "general"
      50 5).2.2.2.1 (by decide),
    (list_endpoints_paginate_at_ten exampleDB (some bob) "alice" "general"
      50 5).2.2.2.2.1 alice (by decide) (by decide),
    (list_endpoints_paginate_at_ten exampleDB (some bob) "alice" "general"
      50 5).2.2.2.2.2 catPub (by decide) (by decide)⟩

/-- C9: a successful authorized mutation redirects to the creator's
profile after post creation, to the post's detail page after a post
edit, and to the deleter's profile after a post deletion. -/
theorem successful_mutation_redirect_targets (db : DB) (u : UserRec)
    (form : PostForm) (newId post_id : Nat) (now : Int)
    (defaultPublished : Bool) (post : Post)
    (hp : findPost db post_id = some post) (ha : u.id = post.author) :
    (CreatePost_view db (some u) form newId defaultPublished).2 =
      Resp.redirect (Url.profile u.username) ∧
    (EditPost_view db (some u) post_id form now).2 =
      Resp.redirect (Url.postDetail post_id) ∧
    (DeletePost_view db (some u) post_id).2 =
      Resp.redirect (Url.profile u.username) := by
  have ha' : (u.id == post.author) = true := beq_iff_eq.mpr ha
  refine ⟨rfl, ?_, ?_⟩
  · unfold EditPost_view
    rw [hp]
    simp only [ha', if_true]
  · unfold DeletePost_view
    rw [hp]
    simp only [ha', if_true]

/-- Witness for C9: alice creates, edits and deletes her own post; the
redirect targets are her profile, the detail page, and her profile. -/
theorem successful_mutation_redirect_targets_witness :
    (CreatePost_view exampleDB (some alice) examplePostForm 9 true).2 =
      Resp.redirect (Url.profile alice.username) ∧
    (EditPost_view exampleDB (some alice) 1 examplePostForm 50).2 =
      Resp.redirect (Url.postDetail 1) ∧
    (DeletePost_view exampleDB (some alice) 1).2 =
      Resp.redirect (Url.profile alice.username) :=
  successful_mutation_redirect_targets exampleDB alice examplePostForm 9 1
    50 true examplePost (by decide) (by decide)

/-- C10: the profile-edit operation loads exactly the requesting user's
record (`get_object` returns `request.user`), its result does not depend
on any URL kwarg, and every other user's record is left in place. -/
theorem profile_edit_targets_requesting_user (db : DB) (u : UserRec)
    (kwargs kwargs2 : List (String × String)) (form : UserForm) :
    EditProfile_get_object u kwargs = u ∧
    EditProfile_view db (some u) kwargs form =
      EditProfile_view db (some u) kwargs2 form ∧
    (∀ v, v ∈ db.users → v.id ≠ u.id →
      v ∈ (EditProfile_view db (some u) kwargs form).1.users) := by
  refine ⟨rfl, rfl, ?_⟩
  intro v hv hne
  show v ∈ db.users.map (fun w =>
    if w.id == u.id then
      { id := u.id, username := form.username, first_name := form.first_name
        last_name := form.last_name, email := form.email }
    else w)
  have hfv : (fun w =>
      if w.id == u.id then
        ({ id := u.id, username := form.username
           first_name := form.first_name, last_name := form.last_name
           email := form.email } : UserRec)
      else w) v = v := if_neg (fun hb => hne (beq_iff_eq.mp hb))
  exact hfv ▸ List.mem_map_of_mem _ hv

/-- Witness for C10: alice edits her profile through a request whose URL
kwargs name bob; the loaded object is still alice and bob's record is
untouched. -/
theorem profile_edit_targets_requesting_user_witness :
    EditProfile_get_object alice [("username", "bob")] = alice ∧
    bob ∈ (EditProfile_view exampleDB (some alice) [("username", "bob")]
      exampleUserForm).1.users :=
  ⟨(profile_edit_targets_requesting_user exampleDB alice
      [("username", "bob")] [] exampleUserForm).1,
    (profile_edit_targets_requesting_user exampleDB alice
      [("username", "bob")] [] exampleUserForm).2.2 bob (by decide)
      (by decide)⟩

end Blogicum
